import Mathlib

/-!
Shallow embedding of the devdocs-chatbot frontend coordination layer:
the Zustand conversation store (`store/chat-store`), the orchestration
hooks (`hooks/use-chat`), the axios transport client (`lib/api-client`)
and the chat input component (`components/chat/chat-input`).

JavaScript strings become `String`, `Date.now()` millisecond readings
and `Math.random().toString(36).substr(2, 9)` tags are passed in as
explicit environment inputs, `AbortController` handles are modelled as
opaque numeric tokens, and `Partial<T>` updates become records of
`Option` fields.
-/

namespace DevDocs

/-- The closed set of supported frameworks (`SUPPORTED_FRAMEWORKS` in
`types/api.ts`). -/
inductive Framework
  | react
  | nextjs
  | tailwind
  | fastapi
  | django
  | postgresql
  | typescript
deriving DecidableEq, Repr

/-- Message roles (`ChatMessage.role` in `types/api.ts`). -/
inductive Role
  | user
  | assistant
deriving DecidableEq, Repr

/-- Chat modes (`ChatMode` in `store/chat-store`): `"documentation"` or
`"code-generation"`. -/
inductive ChatMode
  | documentation
  | codeGeneration
deriving DecidableEq, Repr

/-- A retrieval citation (`SourceNode` in `types/api.ts`).  The numeric
relevance `score` and free-form `metadata` are carried by the backend
payload but never inspected by the store or the hooks, so they are kept
as an uninterpreted `Nat` score-id and omitted metadata. -/
structure SourceNode where
  id : String
  text : String
  score : Nat
  url : Option String := none
  framework : Option Framework := none
deriving DecidableEq, Repr

/-- A history entry sent to the backend: `{role, content}` only. -/
structure ChatMessage where
  role : Role
  content : String
deriving DecidableEq, Repr

/-- A store message (`Message` in `store/chat-store`): a `ChatMessage`
plus UI fields.  Optional TS fields become `Option`. -/
structure Message where
  role : Role
  content : String
  id : String
  timestamp : Nat
  sources : Option (List SourceNode) := none
  trace_id : Option String := none
  isGenerating : Option Bool := none
deriving DecidableEq, Repr

/-- The argument of `addMessage`: `Omit<Message, "id" | "timestamp">`. -/
structure MessageInput where
  role : Role
  content : String
  sources : Option (List SourceNode) := none
  trace_id : Option String := none
  isGenerating : Option Bool := none
deriving DecidableEq, Repr

/-- A `Partial<Message>` update.  The outer `Option` records whether the
key is present in the object literal; for keys that are themselves
optional in `Message` the inner value is again an `Option` (a present
key may carry `undefined`). -/
structure MessageUpdate where
  role : Option Role := none
  content : Option String := none
  id : Option String := none
  timestamp : Option Nat := none
  sources : Option (Option (List SourceNode)) := none
  trace_id : Option (Option String) := none
  isGenerating : Option (Option Bool) := none
deriving DecidableEq, Repr

/-- Object spread `{...m, ...u}`: fields present in `u` win. -/
def mergeMsg (m : Message) (u : MessageUpdate) : Message :=
  { role := u.role.getD m.role
    content := u.content.getD m.content
    id := u.id.getD m.id
    timestamp := u.timestamp.getD m.timestamp
    sources := u.sources.getD m.sources
    trace_id := u.trace_id.getD m.trace_id
    isGenerating := u.isGenerating.getD m.isGenerating }

/-- The store state (`ChatState` in `store/chat-store`).  The
`AbortController | null` slot is an opaque token. -/
structure ChatState where
  messages : List Message
  selectedFrameworks : List Framework
  mode : ChatMode
  isLoading : Bool
  error : Option String
  abortController : Option Nat
  includeDocsContext : Bool
  hasHydrated : Bool
deriving DecidableEq, Repr

/-- The initial store state. -/
def initialState : ChatState :=
  { messages := []
    selectedFrameworks := [.react, .nextjs, .typescript]
    mode := .documentation
    isLoading := false
    error := none
    abortController := none
    includeDocsContext := true
    hasHydrated := false }

/-- The generated message id:
`msg-` + `Date.now()` + `-` + random base-36 tag. -/
def mkMsgId (t : Nat) (r : String) : String :=
  "msg-" ++ toString t ++ "-" ++ r

/-- The freshly built message appended by `addMessage`, given the
`Date.now()` reading `t` and the random tag `r`. -/
def newMessage (t : Nat) (r : String) (m : MessageInput) : Message :=
  { role := m.role
    content := m.content
    sources := m.sources
    trace_id := m.trace_id
    isGenerating := m.isGenerating
    id := mkMsgId t r
    timestamp := t }

/-- `addMessage`: assigns id and timestamp and appends at the end. -/
def addMessage (t : Nat) (r : String) (m : MessageInput) (s : ChatState) : ChatState :=
  { s with messages := s.messages ++ [newMessage t r m] }

/-- `updateLastMessage`: merges the update into the last element when
one exists; the empty case writes back the unchanged list. -/
def updateLastMessage (u : MessageUpdate) (s : ChatState) : ChatState :=
  if h : s.messages = [] then s
  else { s with messages := s.messages.dropLast ++ [mergeMsg (s.messages.getLast h) u] }

/-- `clearMessages`. -/
def clearMessages (s : ChatState) : ChatState :=
  { s with messages := [] }

/-- `toggleFramework`: add if absent; if present, refuse to remove the
sole remaining selection, otherwise filter it out. -/
def toggleFramework (f : Framework) (s : ChatState) : ChatState :=
  let frameworks := s.selectedFrameworks
  if f ∈ frameworks then
    if frameworks.length = 1 then s
    else { s with selectedFrameworks := frameworks.filter (fun g => decide (g ≠ f)) }
  else { s with selectedFrameworks := frameworks ++ [f] }

/-- `setFrameworks`: empty list is rejected. -/
def setFrameworks (fs : List Framework) (s : ChatState) : ChatState :=
  if fs.length = 0 then s else { s with selectedFrameworks := fs }

/-- `setMode`. -/
def setMode (m : ChatMode) (s : ChatState) : ChatState := { s with mode := m }

/-- `setIsLoading`. -/
def setIsLoading (b : Bool) (s : ChatState) : ChatState := { s with isLoading := b }

/-- `setError`. -/
def setError (e : Option String) (s : ChatState) : ChatState := { s with error := e }

/-- `setAbortController`. -/
def setAbortController (c : Option Nat) (s : ChatState) : ChatState :=
  { s with abortController := c }

/-- `stopGeneration`: if a controller is installed, abort it (the
signal reaches the in-flight axios call) and clear both the handle and
the loading flag; otherwise do nothing. -/
def stopGeneration (s : ChatState) : ChatState :=
  match s.abortController with
  | some _ => { s with abortController := none, isLoading := false }
  | none => s

/-- `setIncludeDocsContext`. -/
def setIncludeDocsContext (b : Bool) (s : ChatState) : ChatState :=
  { s with includeDocsContext := b }

/-- `setHasHydrated`. -/
def setHasHydrated (b : Bool) (s : ChatState) : ChatState :=
  { s with hasHydrated := b }

/-- The persisted subset written by the `persist` middleware's
`partialize`. -/
structure PersistedState where
  selectedFrameworks : List Framework
  mode : ChatMode
  includeDocsContext : Bool
deriving DecidableEq, Repr

/-- `partialize`: project the persisted fields. -/
def partialize (s : ChatState) : PersistedState :=
  { selectedFrameworks := s.selectedFrameworks
    mode := s.mode
    includeDocsContext := s.includeDocsContext }

/-- Rehydration on restart: zustand `persist` merges the stored subset
over the freshly constructed initial state, then `onRehydrateStorage`
runs `setHasHydrated true`. -/
def rehydrate (p : PersistedState) : ChatState :=
  setHasHydrated true
    { initialState with
        selectedFrameworks := p.selectedFrameworks
        mode := p.mode
        includeDocsContext := p.includeDocsContext }

/-- One externally invokable store action, with its environment inputs
(`Date.now()` reading and random tag for `addMessage`). -/
inductive StoreOp
  | addMessage (t : Nat) (r : String) (m : MessageInput)
  | updateLastMessage (u : MessageUpdate)
  | clearMessages
  | toggleFramework (f : Framework)
  | setFrameworks (fs : List Framework)
  | setMode (m : ChatMode)
  | setIsLoading (b : Bool)
  | setError (e : Option String)
  | setAbortController (c : Option Nat)
  | stopGeneration
  | setIncludeDocsContext (b : Bool)
  | setHasHydrated (b : Bool)
deriving DecidableEq, Repr

/-- Interpret one store action. -/
def applyOp : StoreOp → ChatState → ChatState
  | .addMessage t r m, s => addMessage t r m s
  | .updateLastMessage u, s => updateLastMessage u s
  | .clearMessages, s => clearMessages s
  | .toggleFramework f, s => toggleFramework f s
  | .setFrameworks fs, s => setFrameworks fs s
  | .setMode m, s => setMode m s
  | .setIsLoading b, s => setIsLoading b s
  | .setError e, s => setError e s
  | .setAbortController c, s => setAbortController c s
  | .stopGeneration, s => stopGeneration s
  | .setIncludeDocsContext b, s => setIncludeDocsContext b s
  | .setHasHydrated b, s => setHasHydrated b s

/-- Run a sequence of store actions from a state. -/
def runOps (ops : List StoreOp) (s : ChatState) : ChatState :=
  ops.foldl (fun s op => applyOp op s) s

/-! ## Transport client (`lib/api-client`) -/

/-- The error-status payload seen by the response interceptor:
`error.response.status` and `error.response.data.detail`. -/
structure ErrResponse where
  status : Nat
  detail : Option String
deriving DecidableEq, Repr

/-- An axios rejection entering the response interceptor: its `name`
and `message`, the optional `response`, and whether `error.request`
is set (request sent, no response received). -/
structure AxiosErr where
  name : String
  message : String
  response : Option ErrResponse
  hasRequest : Bool
deriving DecidableEq, Repr

/-- The error the interceptor lets out: what reaches the mutation's
`onError` as `error.name` / `error.message`. -/
structure Err where
  name : String
  message : String
deriving DecidableEq, Repr

/-- Whether a character list contains `pat` as a contiguous run. -/
def hasSub (pat : List Char) : List Char → Bool
  | [] => pat.isEmpty
  | c :: rest => pat.isPrefixOf (c :: rest) || hasSub pat rest

/-- Substring test (JS `String.prototype.includes`). -/
def strContains (s pat : String) : Bool :=
  hasSub pat.data s.data

/-- The response interceptor's error branch: 422, 500 and 404 responses
are rewrapped as plain `Error`s with classified messages (`detail ||
error.message` — an empty detail string is falsy and falls back), a
response-less rejection with `error.request` set becomes the
connectivity error, and anything else is rethrown unchanged. -/
def interceptErr (e : AxiosErr) : Err :=
  match e.response with
  | some resp =>
    let msg := match resp.detail with
      | some d => if d = "" then e.message else d
      | none => e.message
    if resp.status = 422 then ⟨"Error", "Validation error: " ++ msg⟩
    else if resp.status = 500 then ⟨"Error", "Server error: " ++ msg⟩
    else if resp.status = 404 then ⟨"Error", "Endpoint not found"⟩
    else ⟨e.name, e.message⟩
  | none =>
    if e.hasRequest then
      ⟨"Error", "No response from server. Please check your connection."⟩
    else ⟨e.name, e.message⟩

/-! ## Orchestration hooks (`hooks/use-chat`) -/

/-- A successful `/api/chat` response. -/
structure ChatResponse where
  response : String
  sources : List SourceNode
  trace_id : Option String
deriving DecidableEq, Repr

/-- A successful `/api/generate` response. -/
structure CodeResponse where
  code : String
  trace_id : Option String
deriving DecidableEq, Repr

/-- The cancellation test in both `onError` callbacks:
`error.name === 'CanceledError' || error.message.includes('abort')`. -/
def isCanceledErr (e : Err) : Bool :=
  e.name = "CanceledError" || strContains e.message "abort"

/-- `useChat` `onSuccess`: patch the placeholder with the answer,
citations and trace id, clear the error slot and the handle. -/
def onSuccessChat (d : ChatResponse) (s : ChatState) : ChatState :=
  setAbortController none (setError none
    (updateLastMessage
      { content := some d.response
        sources := some (some d.sources)
        trace_id := some d.trace_id
        isGenerating := some (some false) } s))

/-- `useChat` `onError`: a cancellation writes the stopped notice and
leaves the error slot alone; any other failure writes the generic
notice and records `error.message`. -/
def onErrorChat (e : Err) (s : ChatState) : ChatState :=
  if isCanceledErr e then
    setAbortController none
      (updateLastMessage
        { content := some "Generation stopped.", isGenerating := some (some false) } s)
  else
    setAbortController none
      (setError (some e.message)
        (updateLastMessage
          { content := some "Sorry, I encountered an error. Please try again."
            isGenerating := some (some false) } s))

/-- `useCodeGeneration` `onSuccess`. -/
def onSuccessCode (d : CodeResponse) (s : ChatState) : ChatState :=
  setAbortController none (setError none
    (updateLastMessage
      { content := some d.code
        trace_id := some d.trace_id
        isGenerating := some (some false) } s))

/-- `useCodeGeneration` `onError`. -/
def onErrorCode (e : Err) (s : ChatState) : ChatState :=
  if isCanceledErr e then
    setAbortController none
      (updateLastMessage
        { content := some "Code generation stopped.", isGenerating := some (some false) } s)
  else
    setAbortController none
      (setError (some e.message)
        (updateLastMessage
          { content := some "Sorry, I encountered an error generating code. Please try again."
            isGenerating := some (some false) } s))

/-- `onSettled` (both hooks): clear the loading flag and the handle. -/
def onSettled (s : ChatState) : ChatState :=
  setAbortController none (setIsLoading false s)

/-- A file as the client sees it: name and size in bytes. -/
structure FileMeta where
  name : String
  size : Nat
deriving DecidableEq, Repr

/-- JS `String.prototype.trim`: strip leading and trailing whitespace. -/
def strTrim (s : String) : String :=
  ⟨((s.data.dropWhile (·.isWhitespace)).reverse.dropWhile (·.isWhitespace)).reverse⟩

/-- The user-message content built in both `mutationFn`s: the typed
text, with an attached-file-names note appended when files are present
(the note alone when the typed text is the empty string). -/
def userContent (message : String) (files : List FileMeta) : String :=
  if files.isEmpty then message
  else
    let fileNames := String.intercalate ", " (files.map (·.name))
    if message = "" then "[Attached files: " ++ fileNames ++ "]"
    else message ++ "\n\n[Attached files: " ++ fileNames ++ "]"

/-- `messages.slice(-10)`. -/
def sliceLast10 (ms : List Message) : List Message :=
  ms.drop (ms.length - 10)

/-- The truncated history: last ten messages projected to
`{role, content}`. -/
def toHistory (ms : List Message) : List ChatMessage :=
  (sliceLast10 ms).map (fun m => { role := m.role, content := m.content })

/-- The `/api/chat` request envelope plus the attachments and the abort
token handed to the transport call. -/
structure ChatRequestEnv where
  message : String
  frameworks : List Framework
  history : List ChatMessage
  files : List FileMeta
  token : Nat
deriving DecidableEq, Repr

/-- The `/api/generate` request envelope plus attachments and token. -/
structure CodeRequestEnv where
  prompt : String
  frameworks : List Framework
  history : List ChatMessage
  include_docs_context : Bool
  files : List FileMeta
  token : Nat
deriving DecidableEq, Repr

/-- `sendMessage` up to the point the transport call is issued: the
guard, then `setIsLoading(true)`, `setError(null)`, and the
`mutationFn`'s optimistic writes.  `t1 r1` and `t2 r2` are the id
environment for the two appends and `token` the fresh
`AbortController`.  Returns the new store state and the issued call
(`none` when the guard rejected). -/
def sendMessage (t1 : Nat) (r1 : String) (t2 : Nat) (r2 : String) (token : Nat)
    (message : String) (files : List FileMeta) (s : ChatState) :
    ChatState × Option ChatRequestEnv :=
  if strTrim message = "" ∧ files.isEmpty then (s, none)
  else
    let s1 := setAbortController (some token) (setError none (setIsLoading true s))
    let s2 := addMessage t1 r1 { role := .user, content := userContent message files } s1
    let s3 := addMessage t2 r2
      { role := .assistant, content := "", isGenerating := some true } s2
    (s3, some
      { message := message
        frameworks := s.selectedFrameworks
        history := toHistory s.messages
        files := files
        token := token })

/-- `generateCode` up to the point the transport call is issued. -/
def generateCode (t1 : Nat) (r1 : String) (t2 : Nat) (r2 : String) (token : Nat)
    (prompt : String) (files : List FileMeta) (s : ChatState) :
    ChatState × Option CodeRequestEnv :=
  if strTrim prompt = "" ∧ files.isEmpty then (s, none)
  else
    let s1 := setAbortController (some token) (setError none (setIsLoading true s))
    let s2 := addMessage t1 r1 { role := .user, content := userContent prompt files } s1
    let s3 := addMessage t2 r2
      { role := .assistant, content := "", isGenerating := some true } s2
    (s3, some
      { prompt := prompt
        frameworks := s.selectedFrameworks
        history := toHistory s.messages
        include_docs_context := s.includeDocsContext
        files := files
        token := token })

/-! ## Chat input component (`components/chat/chat-input.tsx`) -/

/-- `MAX_FILE_SIZE = 10 * 1024 * 1024`. -/
def MAX_FILE_SIZE : Nat := 10 * 1024 * 1024

/-- `ACCEPTED_FILE_TYPES`, the `accept` allow-list of the file input. -/
def ACCEPTED_FILE_TYPES : List String :=
  [".txt", ".md", ".json", ".js", ".ts", ".tsx", ".jsx",
   ".py", ".css", ".html", ".xml", ".yaml", ".yml",
   ".csv", ".pdf"]

/-- Whether a file name carries one of the accepted extensions. -/
def extAccepted (name : String) : Bool :=
  ACCEPTED_FILE_TYPES.any (fun ext => ext.data.isSuffixOf name.data)

/-- The file dialog opened through the hidden input honours its
`accept` attribute: only files with allow-listed extensions are
offered. -/
def dialogFilter (files : List FileMeta) : List FileMeta :=
  files.filter (fun f => extAccepted f.name)

/-- The loop body of `handleFileSelect` over the dialog's selection: an
oversized file triggers an `alert` notice and is skipped, every other
file is kept.  Returns the kept files and the notices raised. -/
def selectFiles : List FileMeta → List FileMeta × List String
  | [] => ([], [])
  | f :: rest =>
    if f.size > MAX_FILE_SIZE then
      ((selectFiles rest).1,
       ("File \"" ++ f.name ++ "\" is too large. Maximum size is 10MB.")
         :: (selectFiles rest).2)
    else (f :: (selectFiles rest).1, (selectFiles rest).2)

/-- `handleFileSelect`: filter the dialog selection and append the kept
files to the component's upload list. -/
def handleFileSelect (selected : List FileMeta) (uploaded : List FileMeta) :
    List FileMeta × List String :=
  let (kept, notices) := selectFiles (dialogFilter selected)
  (uploaded ++ kept, notices)

/-- The component-local state `handleSubmit` reads and resets. -/
structure InputState where
  input : String
  uploadedFiles : List FileMeta
deriving DecidableEq, Repr

/-- The call `handleSubmit` hands to the active hook. -/
inductive SubmitCall
  | chat (e : ChatRequestEnv)
  | generate (e : CodeRequestEnv)
deriving DecidableEq, Repr

/-- `handleSubmit`: return untouched when the input is empty with no
files, a request is loading, or the store has not hydrated; otherwise
clear the input state and dispatch the trimmed text and the files to
`sendMessage` or `generateCode` according to the mode. -/
def handleSubmit (t1 : Nat) (r1 : String) (t2 : Nat) (r2 : String) (token : Nat)
    (hydrated : Bool) (inp : InputState) (s : ChatState) :
    InputState × ChatState × Option SubmitCall :=
  if (strTrim inp.input = "" ∧ inp.uploadedFiles.isEmpty) ∨ s.isLoading = true ∨
      hydrated = false then
    (inp, s, none)
  else
    let message := strTrim inp.input
    let files := inp.uploadedFiles
    let inpCleared : InputState := { input := "", uploadedFiles := [] }
    match s.mode with
    | .documentation =>
      let (s', c) := sendMessage t1 r1 t2 r2 token message files s
      (inpCleared, s', c.map .chat)
    | .codeGeneration =>
      let (s', c) := generateCode t1 r1 t2 r2 token message files s
      (inpCleared, s', c.map .generate)

/-! ## Helper lemmas -/

lemma updateLastMessage_frame (u : MessageUpdate) (s : ChatState) :
    (updateLastMessage u s).selectedFrameworks = s.selectedFrameworks ∧
    (updateLastMessage u s).mode = s.mode ∧
    (updateLastMessage u s).isLoading = s.isLoading ∧
    (updateLastMessage u s).error = s.error ∧
    (updateLastMessage u s).abortController = s.abortController ∧
    (updateLastMessage u s).includeDocsContext = s.includeDocsContext ∧
    (updateLastMessage u s).hasHydrated = s.hasHydrated := by
  unfold updateLastMessage
  split <;> simp

@[simp] lemma updateLastMessage_error (u : MessageUpdate) (s : ChatState) :
    (updateLastMessage u s).error = s.error :=
  (updateLastMessage_frame u s).2.2.2.1

@[simp] lemma setError_messages (e : Option String) (s : ChatState) :
    (setError e s).messages = s.messages := rfl

@[simp] lemma setAbortController_messages (c : Option Nat) (s : ChatState) :
    (setAbortController c s).messages = s.messages := rfl

@[simp] lemma setIsLoading_messages (b : Bool) (s : ChatState) :
    (setIsLoading b s).messages = s.messages := rfl

@[simp] lemma onSettled_messages (s : ChatState) :
    (onSettled s).messages = s.messages := rfl

@[simp] lemma onSettled_error (s : ChatState) :
    (onSettled s).error = s.error := rfl

@[simp] lemma onSettled_isLoading (s : ChatState) :
    (onSettled s).isLoading = false := rfl

@[simp] lemma onSettled_abortController (s : ChatState) :
    (onSettled s).abortController = none := rfl

lemma updateLastMessage_messages_of_ne (u : MessageUpdate) (s : ChatState)
    (h : s.messages ≠ []) :
    (updateLastMessage u s).messages =
      s.messages.dropLast ++ [mergeMsg (s.messages.getLast h) u] := by
  unfold updateLastMessage
  split
  · exact absurd (by assumption) h
  · rfl

lemma updateLastMessage_getLast? (u : MessageUpdate) (s : ChatState)
    (h : s.messages ≠ []) :
    (updateLastMessage u s).messages.getLast? =
      some (mergeMsg (s.messages.getLast h) u) := by
  rw [updateLastMessage_messages_of_ne u s h]
  exact List.getLast?_concat _

/-! ## C6 -/

/-- C6: `updateLastMessage` is a no-op on an empty message list; on a
non-empty list it merges the update into the final element only: the
length and every earlier message are unchanged, and every other store
field is unchanged. -/
theorem updateLastMessage_spec (u : MessageUpdate) (s : ChatState) :
    (s.messages = [] → updateLastMessage u s = s) ∧
    (updateLastMessage u s).messages.length = s.messages.length ∧
    (updateLastMessage u s).messages.dropLast = s.messages.dropLast ∧
    (updateLastMessage u s).messages.getLast? =
      s.messages.getLast?.map (fun m => mergeMsg m u) ∧
    (updateLastMessage u s).selectedFrameworks = s.selectedFrameworks ∧
    (updateLastMessage u s).mode = s.mode ∧
    (updateLastMessage u s).isLoading = s.isLoading ∧
    (updateLastMessage u s).error = s.error ∧
    (updateLastMessage u s).abortController = s.abortController ∧
    (updateLastMessage u s).includeDocsContext = s.includeDocsContext := by
  obtain ⟨h1, h2, h3, h4, h5, h6, h7⟩ := updateLastMessage_frame u s
  by_cases h : s.messages = []
  · refine ⟨fun _ => ?_, ?_, ?_, ?_, h1, h2, h3, h4, h5, h6⟩ <;>
      simp [updateLastMessage, h]
  · rw [updateLastMessage_messages_of_ne u s h]
    refine ⟨fun he => absurd he h, ?_, ?_, ?_, h1, h2, h3, h4, h5, h6⟩
    · have := List.length_pos.mpr h
      simp [List.length_dropLast]
      omega
    · exact List.dropLast_concat ..
    · rw [List.getLast?_concat, List.getLast?_eq_getLast _ h]
      rfl

/-- Witness for `updateLastMessage_spec`: the initial (empty) store is
left unchanged by a concrete update. -/
theorem updateLastMessage_spec_witness :
    updateLastMessage { content := some "x" } initialState = initialState :=
  (updateLastMessage_spec { content := some "x" } initialState).1 rfl

/-! ## C7 -/

/-- C7: the persisted subset is exactly `selectedFrameworks`, `mode`
and `includeDocsContext`; rehydrating it after a restart restores those
three fields and resets messages, the loading flag, the error slot and
the cancellation handle to their initial values. -/
theorem persist_roundtrip (s : ChatState) :
    (rehydrate (partialize s)).selectedFrameworks = s.selectedFrameworks ∧
    (rehydrate (partialize s)).mode = s.mode ∧
    (rehydrate (partialize s)).includeDocsContext = s.includeDocsContext ∧
    (rehydrate (partialize s)).messages = [] ∧
    (rehydrate (partialize s)).isLoading = false ∧
    (rehydrate (partialize s)).error = none ∧
    (rehydrate (partialize s)).abortController = none :=
  ⟨rfl, rfl, rfl, rfl, rfl, rfl, rfl⟩

/-! ## C10 -/

/-- C10: after a successful completion (`onSuccess` then `onSettled`)
of either hook, the error slot is `none` — clearing any detail left by
an earlier failure — and the cancellation handle and loading flag are
cleared. -/
theorem success_clears_error (d : ChatResponse) (dc : CodeResponse) (s sc : ChatState) :
    (onSettled (onSuccessChat d s)).error = none ∧
    (onSettled (onSuccessChat d s)).abortController = none ∧
    (onSettled (onSuccessChat d s)).isLoading = false ∧
    (onSettled (onSuccessCode dc sc)).error = none ∧
    (onSettled (onSuccessCode dc sc)).abortController = none ∧
    (onSettled (onSuccessCode dc sc)).isLoading = false := by
  refine ⟨?_, rfl, rfl, ?_, rfl, rfl⟩ <;> rfl

/-! ## C2 -/

/-- Counterexample to C2 as stated: `setFrameworks` accepts a list with
a duplicate, after which toggling that framework passes the
`length = 1` sole-selection check and `filter` removes both copies, so
a sequence of store operations from the initial state empties the
selection. -/
theorem frameworks_emptied_by_dup_set :
    (runOps [.setFrameworks [.react, .react], .toggleFramework .react]
        initialState).selectedFrameworks = [] := by
  decide

/-- Whether a store action keeps the selection duplicate-free: only
`setFrameworks` can introduce a duplicate. -/
def goodOp : StoreOp → Bool
  | .setFrameworks fs => decide fs.Nodup
  | _ => true

/-- The selection invariant: non-empty and duplicate-free. -/
def frameworksInv (s : ChatState) : Prop :=
  s.selectedFrameworks ≠ [] ∧ s.selectedFrameworks.Nodup

lemma exists_ne_of_nodup_two {α : Type} (l : List α) (f : α)
    (hn : l.Nodup) (hl : 2 ≤ l.length) : ∃ g ∈ l, g ≠ f := by
  match l, hl with
  | a :: b :: t, _ =>
    by_cases ha : a = f
    · refine ⟨b, by simp, ?_⟩
      subst ha
      simp only [List.nodup_cons, List.mem_cons] at hn
      exact fun hb => hn.1 (Or.inl hb.symm)
    · exact ⟨a, by simp, ha⟩

lemma applyOp_inv (op : StoreOp) (s : ChatState)
    (hg : goodOp op = true) (hs : frameworksInv s) :
    frameworksInv (applyOp op s) := by
  obtain ⟨hne, hnd⟩ := hs
  cases op with
  | toggleFramework f =>
    simp only [applyOp, toggleFramework]
    by_cases hmem : f ∈ s.selectedFrameworks
    · by_cases hone : s.selectedFrameworks.length = 1
      · simp [hmem, hone]
        exact ⟨hne, hnd⟩
      · have h2 : 2 ≤ s.selectedFrameworks.length := by
          have := List.length_pos.mpr hne
          omega
        obtain ⟨g, hgmem, hgne⟩ := exists_ne_of_nodup_two _ f hnd h2
        simp only [hmem, hone, if_true, if_false]
        have hfm : g ∈ s.selectedFrameworks.filter (fun g => decide (g ≠ f)) := by
          simp [List.mem_filter, hgmem, hgne]
        exact ⟨List.ne_nil_of_mem hfm, hnd.filter _⟩
    · simp only [hmem, if_false]
      refine ⟨by simp, ?_⟩
      show (s.selectedFrameworks ++ [f]).Nodup
      rw [List.nodup_append]
      exact ⟨hnd, List.nodup_singleton f,
        fun a ha hf => hmem ((List.mem_singleton.mp hf) ▸ ha)⟩
  | setFrameworks fs =>
    simp only [applyOp, setFrameworks]
    by_cases hz : fs.length = 0
    · simp [hz]
      exact ⟨hne, hnd⟩
    · simp only [hz, if_false]
      refine ⟨fun h => hz (by simp [show fs = [] from h]), ?_⟩
      simpa [goodOp] using hg
  | addMessage t r m => exact ⟨hne, hnd⟩
  | updateLastMessage u =>
    refine ⟨?_, ?_⟩ <;>
      simp only [applyOp, (updateLastMessage_frame u s).1] <;> assumption
  | clearMessages => exact ⟨hne, hnd⟩
  | setMode m => exact ⟨hne, hnd⟩
  | setIsLoading b => exact ⟨hne, hnd⟩
  | setError e => exact ⟨hne, hnd⟩
  | setAbortController c => exact ⟨hne, hnd⟩
  | stopGeneration =>
    simp only [applyOp, stopGeneration]
    cases s.abortController <;> exact ⟨hne, hnd⟩
  | setIncludeDocsContext b => exact ⟨hne, hnd⟩
  | setHasHydrated b => exact ⟨hne, hnd⟩

lemma runOps_inv (ops : List StoreOp) (s : ChatState)
    (hg : ∀ op ∈ ops, goodOp op = true) (hs : frameworksInv s) :
    frameworksInv (runOps ops s) := by
  induction ops generalizing s with
  | nil => exact hs
  | cons op rest ih =>
    exact ih _ (fun o ho => hg o (List.mem_cons_of_mem _ ho))
      (applyOp_inv op s (hg op (List.mem_cons_self ..)) hs)

/-- C2 amended: `toggleFramework` refuses to remove the sole remaining
selection and `setFrameworks []` is a no-op, so every sequence of store
operations from the initial state in which each `setFrameworks` call
receives a duplicate-free list keeps `selectedFrameworks` non-empty.
(With a duplicated `setFrameworks` argument the invariant can be
broken, see `frameworks_emptied_by_dup_set`.) -/
theorem frameworks_nonempty_invariant (ops : List StoreOp)
    (hg : ∀ op ∈ ops, goodOp op = true) :
    1 ≤ (runOps ops initialState).selectedFrameworks.length := by
  have h := runOps_inv ops initialState hg (by constructor <;> decide)
  exact List.length_pos.mpr h.1

/-- Witness for `frameworks_nonempty_invariant`: a concrete operation
sequence that toggles, re-sets and stops. -/
theorem frameworks_nonempty_invariant_witness :
    1 ≤ (runOps [.toggleFramework .react, .toggleFramework .django,
        .setFrameworks [.tailwind], .toggleFramework .tailwind]
        initialState).selectedFrameworks.length :=
  frameworks_nonempty_invariant _ (by decide)

/-! ## C3 -/

/-- Counterexample to C3 as stated: `sendMessage` itself carries no
in-flight guard — invoked with non-blank text while `isLoading` is
already set it still appends messages and issues a transport call. -/
theorem sendMessage_ignores_inflight :
    (sendMessage 0 "aaa" 1 "bbb" 7 "hi" []
        (setIsLoading true initialState)).2 ≠ none ∧
    (sendMessage 0 "aaa" 1 "bbb" 7 "hi" []
        (setIsLoading true initialState)).1.messages ≠
      (setIsLoading true initialState).messages := by
  decide

/-- C3 amended: `sendMessage` and `generateCode` are silent no-ops —
store unchanged, no transport call — when the text is empty or
whitespace-only and no attachments are given; the in-flight guard is
enforced one level up, in the chat input's `handleSubmit`, which leaves
the component state and the store untouched and issues no call while
`isLoading` is set (and likewise for the empty-input case and before
hydration). -/
theorem submit_guards (t1 t2 token : Nat) (r1 r2 message : String)
    (files : List FileMeta) (inp : InputState) (hydrated : Bool)
    (s : ChatState) :
    (strTrim message = "" → files = [] →
      sendMessage t1 r1 t2 r2 token message files s = (s, none)) ∧
    (strTrim message = "" → files = [] →
      generateCode t1 r1 t2 r2 token message files s = (s, none)) ∧
    (s.isLoading = true →
      handleSubmit t1 r1 t2 r2 token hydrated inp s = (inp, s, none)) ∧
    (strTrim inp.input = "" → inp.uploadedFiles = [] →
      handleSubmit t1 r1 t2 r2 token hydrated inp s = (inp, s, none)) ∧
    (hydrated = false →
      handleSubmit t1 r1 t2 r2 token hydrated inp s = (inp, s, none)) := by
  refine ⟨?_, ?_, ?_, ?_, ?_⟩
  · intro h1 h2
    simp [sendMessage, h1, h2]
  · intro h1 h2
    simp [generateCode, h1, h2]
  · intro h
    simp [handleSubmit, h]
  · intro h1 h2
    simp [handleSubmit, h1, h2]
  · intro h
    simp [handleSubmit, h]

/-- Witness for `submit_guards`: whitespace-only input is dropped by
`sendMessage`, and a submission attempted while loading is dropped by
`handleSubmit`. -/
theorem submit_guards_witness :
    sendMessage 0 "a" 1 "b" 7 " " [] initialState = (initialState, none) ∧
    handleSubmit 0 "a" 1 "b" 7 true { input := "hi", uploadedFiles := [] }
        (setIsLoading true initialState) =
      ({ input := "hi", uploadedFiles := [] }, setIsLoading true initialState, none) :=
  ⟨(submit_guards 0 1 7 "a" "b" " " [] { input := "hi", uploadedFiles := [] }
      true initialState).1 (by decide) rfl,
   (submit_guards 0 1 7 "a" "b" " " [] { input := "hi", uploadedFiles := [] }
      true (setIsLoading true initialState)).2.2.1 rfl⟩

/-! ## C5 -/

/-- C5: whenever `sendMessage` or `generateCode` issues a request, the
envelope's history is the last ten (or fewer) messages of the
conversation as it stood before the user message and the placeholder
were appended, each projected to role and content only. -/
theorem history_window (t1 t2 token : Nat) (r1 r2 message : String)
    (files : List FileMeta) (s : ChatState) (env : ChatRequestEnv)
    (envc : CodeRequestEnv) :
    ((sendMessage t1 r1 t2 r2 token message files s).2 = some env →
      (sendMessage t1 r1 t2 r2 token message files s).1.messages.dropLast.dropLast
          = s.messages ∧
      env.history = (s.messages.drop (s.messages.length - 10)).map
        (fun m => ({ role := m.role, content := m.content } : ChatMessage)) ∧
      env.history.length = min 10 s.messages.length) ∧
    ((generateCode t1 r1 t2 r2 token message files s).2 = some envc →
      (generateCode t1 r1 t2 r2 token message files s).1.messages.dropLast.dropLast
          = s.messages ∧
      envc.history = (s.messages.drop (s.messages.length - 10)).map
        (fun m => ({ role := m.role, content := m.content } : ChatMessage)) ∧
      envc.history.length = min 10 s.messages.length) := by
  have hlen : (toHistory s.messages).length = min 10 s.messages.length := by
    simp only [toHistory, sliceLast10, List.length_map, List.length_drop]
    omega
  constructor
  · intro h
    by_cases hg : strTrim message = "" ∧ files.isEmpty
    · simp [sendMessage, hg] at h
    · simp only [sendMessage, if_neg hg] at h ⊢
      obtain rfl : env = _ := (Option.some_inj.mp h).symm
      refine ⟨?_, rfl, hlen⟩
      simp [addMessage, List.dropLast_concat]
  · intro h
    by_cases hg : strTrim message = "" ∧ files.isEmpty
    · simp [generateCode, hg] at h
    · simp only [generateCode, if_neg hg] at h ⊢
      obtain rfl : envc = _ := (Option.some_inj.mp h).symm
      refine ⟨?_, rfl, hlen⟩
      simp [addMessage, List.dropLast_concat]

/-- Witness for `history_window`: a two-message conversation submitted
with non-blank text. -/
theorem history_window_witness :
    ((sendMessage 5 "aa" 6 "bb" 9 "hi" []
        { initialState with messages :=
            [{ role := .user, content := "q", id := "msg-1-x", timestamp := 1 },
             { role := .assistant, content := "a", id := "msg-2-y", timestamp := 2 }] }).2
      = some { message := "hi",
               frameworks := [.react, .nextjs, .typescript],
               history := [{ role := .user, content := "q" },
                           { role := .assistant, content := "a" }],
               files := [], token := 9 }) ∧
    [({ role := .user, content := "q" } : ChatMessage),
     { role := .assistant, content := "a" }].length = min 10 2 := by
  have h := (history_window 5 6 9 "aa" "bb" "hi" []
    { initialState with messages :=
        [{ role := .user, content := "q", id := "msg-1-x", timestamp := 1 },
         { role := .assistant, content := "a", id := "msg-2-y", timestamp := 2 }] }
    { message := "hi", frameworks := [.react, .nextjs, .typescript],
      history := [{ role := .user, content := "q" },
                  { role := .assistant, content := "a" }],
      files := [], token := 9 }
    { prompt := "", frameworks := [], history := [],
      include_docs_context := true, files := [], token := 0 }).1 (by decide)
  exact ⟨by decide, h.2.2⟩

/-! ## C1 -/

@[simp] lemma stopGeneration_messages (s : ChatState) :
    (stopGeneration s).messages = s.messages := by
  unfold stopGeneration
  cases s.abortController <;> rfl

@[simp] lemma stopGeneration_error (s : ChatState) :
    (stopGeneration s).error = s.error := by
  unfold stopGeneration
  cases s.abortController <;> rfl

@[simp] lemma setAbortController_error (c : Option Nat) (s : ChatState) :
    (setAbortController c s).error = s.error := rfl

@[simp] lemma setError_error (e : Option String) (s : ChatState) :
    (setError e s).error = e := rfl

/-- The rejection the axios 1.x adapter produces for an in-flight
request aborted via its signal: `CanceledError` (message `"canceled"`)
with no `response` but with the request object attached — the adapter
constructs it as `new CanceledError(null, config, request)`, and
`AxiosError` stores that `request` on the error. -/
def abortedAxiosErr : AxiosErr :=
  ⟨"CanceledError", "canceled", none, true⟩

/-- A mid-generation store: one generating placeholder with the
loading flag set and a cancellation handle installed. -/
def inflightState : ChatState :=
  { initialState with
      messages := [{ role := .assistant, content := "", id := "msg-3-z",
                     timestamp := 3, isGenerating := some true }],
      isLoading := true
      abortController := some 4 }

/-- C1: the code contradicts the claim.  Axios rejects an aborted
in-flight request with `CanceledError` carrying the request object,
and the interceptor's `error.request` branch rewrites it into the
connectivity `Error`.  That rewritten error fails the handlers' own
`CanceledError`/abort test — which would have recognised the
unconverted rejection — so after the user presses stop, the generic
failure notice is written into the placeholder and the failure detail
lands in the error slot: the cancellation is conflated with a
connectivity failure instead of being reported distinctly. -/
theorem cancellation_conflated :
    interceptErr abortedAxiosErr =
      ⟨"Error", "No response from server. Please check your connection."⟩ ∧
    isCanceledErr ⟨"CanceledError", "canceled"⟩ = true ∧
    isCanceledErr (interceptErr abortedAxiosErr) = false ∧
    (onSettled (onErrorChat (interceptErr abortedAxiosErr)
        (stopGeneration inflightState))).error =
      some "No response from server. Please check your connection." ∧
    (onSettled (onErrorChat (interceptErr abortedAxiosErr)
        (stopGeneration inflightState))).messages =
      [{ role := .assistant,
         content := "Sorry, I encountered an error. Please try again.",
         id := "msg-3-z", timestamp := 3, isGenerating := some false }] := by
  exact ⟨rfl, by decide, by decide, by decide, by decide⟩

/-! ## C4 -/

/-- C4: the interceptor classifies a 422 response as a validation
failure (message opening with "Validation error"), a 500 response as a
server failure, a 404 response as a routing failure, and a rejection
that got no response as a connectivity failure; and for any failure the
handler does not classify as cancellation, both hooks replace the last
message's content with the fixed generic failure notice, clear the
generating and loading flags and the handle, and record the failure
detail in the store's error slot. -/
theorem error_classification :
    (∀ e : AxiosErr, ∀ resp, e.response = some resp → resp.status = 422 →
        ∃ d, interceptErr e = { name := "Error", message := "Validation error: " ++ d }) ∧
    (∀ e : AxiosErr, ∀ resp, e.response = some resp → resp.status = 500 →
        ∃ d, interceptErr e = { name := "Error", message := "Server error: " ++ d }) ∧
    (∀ e : AxiosErr, ∀ resp, e.response = some resp → resp.status = 404 →
        interceptErr e = { name := "Error", message := "Endpoint not found" }) ∧
    (∀ e : AxiosErr, e.response = none → e.hasRequest = true →
        interceptErr e =
          ⟨"Error", "No response from server. Please check your connection."⟩) ∧
    (∀ (e : Err) (s : ChatState), isCanceledErr e = false → s.messages ≠ [] →
        (∃ m, s.messages.getLast? = some m ∧
            (onSettled (onErrorChat e s)).messages.getLast? =
              some { m with
                content := "Sorry, I encountered an error. Please try again."
                isGenerating := some false }) ∧
        (onSettled (onErrorChat e s)).error = some e.message ∧
        (onSettled (onErrorChat e s)).isLoading = false ∧
        (onSettled (onErrorChat e s)).abortController = none) ∧
    (∀ (e : Err) (s : ChatState), isCanceledErr e = false → s.messages ≠ [] →
        (∃ m, s.messages.getLast? = some m ∧
            (onSettled (onErrorCode e s)).messages.getLast? =
              some { m with
                content := "Sorry, I encountered an error generating code. Please try again."
                isGenerating := some false }) ∧
        (onSettled (onErrorCode e s)).error = some e.message) := by
  refine ⟨?_, ?_, ?_, ?_, ?_, ?_⟩
  · intro e resp h1 h2
    simp only [interceptErr, h1, h2, if_true]
    exact ⟨_, rfl⟩
  · intro e resp h1 h2
    simp only [interceptErr, h1, h2]
    exact ⟨_, rfl⟩
  · intro e resp h1 h2
    simp only [interceptErr, h1, h2]
    rfl
  · intro e h1 h2
    simp only [interceptErr, h1, h2, if_true]
  · intro e s hc hne
    refine ⟨⟨s.messages.getLast hne, List.getLast?_eq_getLast _ hne, ?_⟩,
      ?_, rfl, rfl⟩
    · simp only [onSettled_messages, onErrorChat, hc, if_false, Bool.false_eq_true,
        setAbortController_messages, setError_messages]
      rw [updateLastMessage_getLast? _ _ hne]
      rfl
    · simp [onErrorChat, hc]
  · intro e s hc hne
    refine ⟨⟨s.messages.getLast hne, List.getLast?_eq_getLast _ hne, ?_⟩, ?_⟩
    · simp only [onSettled_messages, onErrorCode, hc, if_false, Bool.false_eq_true,
        setAbortController_messages, setError_messages]
      rw [updateLastMessage_getLast? _ _ hne]
      rfl
    · simp [onErrorCode, hc]

/-- The mocked 422 rejection used as a witness input. -/
def mockValidation422 : AxiosErr :=
  ⟨"AxiosError", "Request failed with status code 422",
   some ⟨422, some "frameworks field required"⟩, true⟩

/-- A one-placeholder store used as a witness input. -/
def placeholderState : ChatState :=
  { initialState with
      messages := [{ role := .assistant, content := "", id := "msg-3-z",
                     timestamp := 3, isGenerating := some true }] }

/-- Witness for `error_classification`: the mocked 422 rejection and
the resulting generic failure notice on a one-message store. -/
theorem error_classification_witness :
    (∃ d, interceptErr mockValidation422 =
        ⟨"Error", "Validation error: " ++ d⟩) ∧
    (onSettled (onErrorChat
        ⟨"Error", "Validation error: frameworks field required"⟩
        placeholderState)).error
      = some "Validation error: frameworks field required" :=
  ⟨error_classification.1 mockValidation422 _ rfl rfl,
   (error_classification.2.2.2.2.1
      ⟨"Error", "Validation error: frameworks field required"⟩
      placeholderState (by decide) (by decide)).2.1⟩

/-! ## C8 -/

lemma selectFiles_kept (l : List FileMeta) :
    ∀ g ∈ (selectFiles l).1, g ∈ l ∧ g.size ≤ MAX_FILE_SIZE := by
  induction l with
  | nil =>
    intro g hg
    simp [selectFiles] at hg
  | cons f rest ih =>
    intro g hg
    by_cases hs : f.size > MAX_FILE_SIZE
    · simp only [selectFiles, if_pos hs] at hg
      obtain ⟨h1, h2⟩ := ih g hg
      exact ⟨List.mem_cons_of_mem _ h1, h2⟩
    · simp only [selectFiles, if_neg hs, List.mem_cons] at hg
      rcases hg with rfl | hg
      · exact ⟨List.mem_cons_self .., by omega⟩
      · obtain ⟨h1, h2⟩ := ih g hg
        exact ⟨List.mem_cons_of_mem _ h1, h2⟩

lemma selectFiles_notice (f : FileMeta) (l : List FileMeta)
    (hmem : f ∈ l) (hs : f.size > MAX_FILE_SIZE) :
    ("File \"" ++ f.name ++ "\" is too large. Maximum size is 10MB.")
      ∈ (selectFiles l).2 := by
  induction l with
  | nil => simp at hmem
  | cons g rest ih =>
    rcases List.mem_cons.mp hmem with rfl | hmem'
    · simp only [selectFiles, if_pos hs]
      exact List.mem_cons_self ..
    · by_cases hg : g.size > MAX_FILE_SIZE
      · simp only [selectFiles, if_pos hg]
        exact List.mem_cons_of_mem _ (ih hmem')
      · simp only [selectFiles, if_neg hg]
        exact ih hmem'

/-- C8: the upload pipeline keeps only files within the 10 MB cap
(every kept file beyond the previously uploaded ones passed the size
check), raises the user-facing oversized notice for every oversized
file in the dialog selection, admits only allow-listed extensions
through the dialog filter, and for a sole oversized file the upload
list stays empty so a submission with empty text appends no message
and issues no call. -/
theorem attachment_validation (f : FileMeta) (selected uploaded : List FileMeta)
    (s : ChatState) (t1 t2 token : Nat) (r1 r2 : String) (hydr : Bool) :
    (∀ g ∈ (handleFileSelect selected uploaded).1,
        g ∈ uploaded ∨ g.size ≤ MAX_FILE_SIZE) ∧
    (f ∈ selected → extAccepted f.name = true → f.size > MAX_FILE_SIZE →
        ("File \"" ++ f.name ++ "\" is too large. Maximum size is 10MB.")
          ∈ (handleFileSelect selected uploaded).2) ∧
    (∀ g ∈ (handleFileSelect selected []).1, extAccepted g.name = true) ∧
    (f.size > MAX_FILE_SIZE →
        (handleFileSelect [f] []).1 = [] ∧
        handleSubmit t1 r1 t2 r2 token hydr
            { input := "", uploadedFiles := (handleFileSelect [f] []).1 } s
          = ({ input := "", uploadedFiles := (handleFileSelect [f] []).1 }, s, none)) := by
  refine ⟨?_, ?_, ?_, ?_⟩
  · intro g hg
    simp only [handleFileSelect, List.mem_append] at hg
    rcases hg with hg | hg
    · exact Or.inl hg
    · exact Or.inr (selectFiles_kept _ g hg).2
  · intro hmem hext hs
    have hmem' : f ∈ dialogFilter selected := by
      simp [dialogFilter, List.mem_filter, hmem, hext]
    exact selectFiles_notice f _ hmem' hs
  · intro g hg
    simp only [handleFileSelect, List.nil_append] at hg
    have := (selectFiles_kept _ g hg).1
    simp only [dialogFilter, List.mem_filter] at this
    exact this.2
  · intro hs
    have hempty : (handleFileSelect [f] []).1 = [] := by
      by_cases hext : extAccepted f.name = true
      · simp [handleFileSelect, dialogFilter, selectFiles, hext, hs]
      · rw [Bool.not_eq_true] at hext
        simp [handleFileSelect, dialogFilter, selectFiles, hext]
    refine ⟨hempty, ?_⟩
    rw [hempty]
    simp [handleSubmit, strTrim]

/-- Witness for `attachment_validation`: an 11 MB text file. -/
theorem attachment_validation_witness :
    (handleFileSelect [⟨"big.txt", 11 * 1024 * 1024⟩] []).1 = [] ∧
    ("File \"big.txt\" is too large. Maximum size is 10MB.")
      ∈ (handleFileSelect [⟨"big.txt", 11 * 1024 * 1024⟩] []).2 :=
  ⟨((attachment_validation ⟨"big.txt", 11 * 1024 * 1024⟩
      [⟨"big.txt", 11 * 1024 * 1024⟩] [] initialState 0 1 7 "a" "b" true).2.2.2
      (by decide)).1,
   (attachment_validation ⟨"big.txt", 11 * 1024 * 1024⟩
      [⟨"big.txt", 11 * 1024 * 1024⟩] [] initialState 0 1 7 "a" "b" true).2.1
      (by decide) (by decide) (by decide)⟩

/-! ## C9 -/

/-- Decimal digit characters of `n`, most significant first: the list
that `Nat.toDigits 10 n` unfolds to. -/
def natChars (n : Nat) : List Char :=
  if _h : n < 10 then [Nat.digitChar n]
  else natChars (n / 10) ++ [Nat.digitChar (n % 10)]
decreasing_by
  exact Nat.div_lt_self (by omega) (by omega)

lemma toDigitsCore_eq (fuel : Nat) :
    ∀ (n : Nat) (ds : List Char), n < fuel →
      Nat.toDigitsCore 10 fuel n ds = natChars n ++ ds := by
  induction fuel with
  | zero => omega
  | succ f ih =>
    intro n ds h
    unfold Nat.toDigitsCore
    by_cases h10 : n / 10 = 0
    · have hn : n < 10 := by
        by_contra hge
        have : 1 ≤ n / 10 := (Nat.one_le_div_iff (by omega)).mpr (by omega)
        omega
      rw [if_pos h10, natChars, dif_pos hn, Nat.mod_eq_of_lt hn]
      rfl
    · have hge : ¬ n < 10 := fun hlt => h10 (Nat.div_eq_of_lt hlt)
      rw [if_neg h10, ih (n / 10) _ (by
        have := Nat.div_lt_self (show 0 < n by omega) (show 1 < 10 by omega)
        omega)]
      conv_rhs => rw [natChars]
      rw [dif_neg hge]
      simp [List.append_assoc]

lemma repr_data (n : Nat) : (Nat.repr n).data = natChars n := by
  show (Nat.toDigits 10 n).asString.data = natChars n
  unfold Nat.toDigits
  rw [toDigitsCore_eq _ _ _ (Nat.lt_succ_self n)]
  simp [List.asString]

lemma digitChar_ne_dash (d : Nat) : Nat.digitChar d ≠ '-' := by
  by_cases h : d < 16
  · interval_cases d <;> decide
  · simp only [Nat.digitChar]
    have h0 : ¬ d = 0 := by omega
    have h1 : ¬ d = 1 := by omega
    have h2 : ¬ d = 2 := by omega
    have h3 : ¬ d = 3 := by omega
    have h4 : ¬ d = 4 := by omega
    have h5 : ¬ d = 5 := by omega
    have h6 : ¬ d = 6 := by omega
    have h7 : ¬ d = 7 := by omega
    have h8 : ¬ d = 8 := by omega
    have h9 : ¬ d = 9 := by omega
    have ha : ¬ d = 10 := by omega
    have hb : ¬ d = 11 := by omega
    have hc : ¬ d = 12 := by omega
    have hd : ¬ d = 13 := by omega
    have he : ¬ d = 14 := by omega
    have hf : ¬ d = 15 := by omega
    simp [h0, h1, h2, h3, h4, h5, h6, h7, h8, h9, ha, hb, hc, hd, he, hf]

lemma natChars_dashFree (n : Nat) : '-' ∉ natChars n := by
  induction n using Nat.strong_induction_on with
  | _ n ih =>
    by_cases h : n < 10
    · rw [natChars, dif_pos h]
      simp only [List.mem_singleton]
      exact fun he => digitChar_ne_dash n he.symm
    · rw [natChars, dif_neg h]
      intro hmem
      rcases List.mem_append.mp hmem with hmem | hmem
      · exact ih (n / 10) (Nat.div_lt_self (by omega) (by omega)) hmem
      · exact digitChar_ne_dash (n % 10)
          (List.mem_singleton.mp hmem).symm

lemma natChars_foldl (n : Nat) :
    ∀ a : Nat, (natChars n).foldl (fun x c => 10 * x + (c.toNat - 48)) a
      = a * 10 ^ (natChars n).length + n := by
  induction n using Nat.strong_induction_on with
  | _ n ih =>
    intro a
    by_cases h : n < 10
    · rw [natChars, dif_pos h]
      have hv : (Nat.digitChar n).toNat = 48 + n := by
        interval_cases n <;> rfl
      simp [List.foldl, hv]
      omega
    · rw [natChars, dif_neg h]
      rw [List.foldl_append]
      have hdiv : n / 10 < n := Nat.div_lt_self (by omega) (by omega)
      rw [ih (n / 10) hdiv a]
      have hv : (Nat.digitChar (n % 10)).toNat = 48 + n % 10 := by
        have : n % 10 < 10 := Nat.mod_lt _ (by omega)
        interval_cases hm : n % 10 <;> rfl
      simp only [List.foldl, hv, List.length_append, List.length_singleton]
      have hmod := Nat.div_add_mod n 10
      ring_nf
      omega

lemma natChars_inj (n m : Nat) (h : natChars n = natChars m) : n = m := by
  have hn := natChars_foldl n 0
  have hm := natChars_foldl m 0
  rw [h] at hn
  omega

lemma append_dash_inj (a : List Char) :
    ∀ (c b d : List Char), '-' ∉ a → '-' ∉ c →
      a ++ '-' :: b = c ++ '-' :: d → a = c ∧ b = d := by
  induction a with
  | nil =>
    intro c b d _ hc h
    cases c with
    | nil => simpa using h
    | cons y ys =>
      simp only [List.nil_append, List.cons_append, List.cons.injEq] at h
      exact absurd (by rw [← h.1]; exact List.mem_cons_self ..) hc
  | cons x xs ih =>
    intro c b d ha hc h
    cases c with
    | nil =>
      simp only [List.cons_append, List.nil_append, List.cons.injEq] at h
      exact absurd (by rw [h.1]; exact List.mem_cons_self ..) ha
    | cons y ys =>
      simp only [List.cons_append, List.cons.injEq] at h
      obtain ⟨rfl, h2⟩ := h
      have hxs : '-' ∉ xs := fun hm => ha (List.mem_cons_of_mem _ hm)
      have hys : '-' ∉ ys := fun hm => hc (List.mem_cons_of_mem _ hm)
      obtain ⟨rfl, rfl⟩ := ih ys b d hxs hys h2
      exact ⟨rfl, rfl⟩

lemma mkMsgId_inj (t t' : Nat) (r r' : String)
    (h : mkMsgId t r = mkMsgId t' r') : t = t' ∧ r = r' := by
  have hd : (mkMsgId t r).data = (mkMsgId t' r').data := by rw [h]
  have htos : ∀ n : Nat, (toString n).data = natChars n := fun n => repr_data n
  simp only [mkMsgId, String.data_append, htos] at hd
  have hd' : natChars t ++ '-' :: r.data = natChars t' ++ '-' :: r'.data := by
    simp only [List.append_assoc, List.singleton_append, List.cons_append,
      List.nil_append, List.cons.injEq, true_and] at hd
    exact hd
  obtain ⟨h1, h2⟩ := append_dash_inj _ _ _ _ (natChars_dashFree t)
    (natChars_dashFree t') hd'
  exact ⟨natChars_inj _ _ h1, String.ext h2⟩

/-- A run of `addMessage` calls with their environment inputs. -/
def addRun (gens : List (Nat × String × MessageInput)) (s : ChatState) : ChatState :=
  gens.foldl (fun s g => addMessage g.1 g.2.1 g.2.2 s) s

lemma addRun_messages (gens : List (Nat × String × MessageInput)) (s : ChatState) :
    (addRun gens s).messages
      = s.messages ++ gens.map (fun g => newMessage g.1 g.2.1 g.2.2) := by
  induction gens generalizing s with
  | nil => simp [addRun]
  | cons g rest ih =>
    show (addRun rest (addMessage g.1 g.2.1 g.2.2 s)).messages = _
    rw [ih]
    simp [addMessage]

/-- C9: `addMessage` always succeeds and appends exactly one message at
the end of the sequence; in a conversation built by any run of appends,
if the new call's `Date.now()` reading and random tag differ as a pair
from every earlier call's, the assigned id (`msg-` + time + `-` + tag,
injective in the pair since the decimal time part contains no dash)
differs from every existing id, and if the clock reading is at least
every earlier reading the assigned timestamp is greater than or equal
to every existing timestamp. -/
theorem addMessage_fresh (gens : List (Nat × String × MessageInput))
    (t : Nat) (r : String) (m : MessageInput)
    (hdistinct : ∀ g ∈ gens, (g.1, g.2.1) ≠ (t, r))
    (hmono : ∀ g ∈ gens, g.1 ≤ t) :
    (addMessage t r m (addRun gens initialState)).messages
        = (addRun gens initialState).messages ++ [newMessage t r m] ∧
    (∀ msg ∈ (addRun gens initialState).messages,
        msg.id ≠ (newMessage t r m).id) ∧
    (∀ msg ∈ (addRun gens initialState).messages,
        msg.timestamp ≤ (newMessage t r m).timestamp) := by
  have h0 : initialState.messages = [] := rfl
  refine ⟨rfl, ?_, ?_⟩
  · intro msg hmsg
    rw [addRun_messages, h0, List.nil_append, List.mem_map] at hmsg
    obtain ⟨g, hg, rfl⟩ := hmsg
    intro hid
    obtain ⟨ht, hr2⟩ := mkMsgId_inj _ _ _ _ hid
    exact hdistinct g hg (by rw [ht, hr2])
  · intro msg hmsg
    rw [addRun_messages, h0, List.nil_append, List.mem_map] at hmsg
    obtain ⟨g, hg, rfl⟩ := hmsg
    exact hmono g hg

/-- Witness for `addMessage_fresh`: a third append onto a two-message
run with distinct clock/tag pairs. -/
theorem addMessage_fresh_witness :
    (addMessage 3 "cc" ⟨.user, "again", none, none, none⟩
        (addRun [(1, "aa", ⟨.user, "q", none, none, none⟩),
                 (2, "bb", ⟨.assistant, "a", none, none, none⟩)]
          initialState)).messages
      = (addRun [(1, "aa", ⟨.user, "q", none, none, none⟩),
                 (2, "bb", ⟨.assistant, "a", none, none, none⟩)]
          initialState).messages
        ++ [newMessage 3 "cc" ⟨.user, "again", none, none, none⟩] :=
  (addMessage_fresh
    [(1, "aa", ⟨.user, "q", none, none, none⟩),
     (2, "bb", ⟨.assistant, "a", none, none, none⟩)]
    3 "cc" ⟨.user, "again", none, none, none⟩
    (by decide) (by decide)).1

end DevDocs
